import Mathlib

/-!
Verification of the receipt validation engine (`validate_receipt` in
`src/validation_ui.py`) of the receipt-vault-analyzer repository.

The validator receives a receipt record (a mapping whose values may be
null, strings, or numbers), plus a `skip_duplicate` flag, and consults a
single external collaborator `receipt_exists`.  We embed Python values as
an inductive `Value`, a record as five optional fields (`none` models both
an absent key and a null value, matching `data.get(f) is None`), numbers
as rationals, and the external lookup as a function into `Except E Bool`
so that an exception raised by the collaborator is observable.
-/

namespace ReceiptVault

/-- A Python value stored in a receipt-record field: a string or a number.
Absence / `None` is modelled by `Option` at the field level. -/
inductive Value where
  | vStr (s : String)
  | vNum (q : ℚ)
deriving DecidableEq, Repr

/-- The receipt record consulted by `validate_receipt`: the five fields the
validator reads.  `none` models a missing key or a `None` value. -/
structure ReceiptRecord where
  bill_id : Option Value
  vendor : Option Value
  date : Option Value
  amount : Option Value
  tax : Option Value
deriving DecidableEq, Repr

/-- One entry of the report: `{"title": ..., "status": ..., "message": ...}`. -/
structure RuleResult where
  title : String
  status : String
  message : String
deriving DecidableEq, Repr

/-- The report returned by `validate_receipt`: `{"passed": ..., "results": ...}`. -/
structure ValidationReport where
  passed : Bool
  results : List RuleResult
deriving DecidableEq, Repr

/-- `data.get(f)` for the five keys the validator reads. -/
def ReceiptRecord.get (data : ReceiptRecord) (f : String) : Option Value :=
  if f = "bill_id" then data.bill_id
  else if f = "vendor" then data.vendor
  else if f = "date" then data.date
  else if f = "amount" then data.amount
  else if f = "tax" then data.tax
  else none

/-- `EXPECTED_TAX_RATE = 0.08` from the source. -/
def EXPECTED_TAX_RATE : ℚ := 8 / 100

/-- `TOLERANCE = 0.05` from the source. -/
def TOLERANCE : ℚ := 5 / 100

/-- Value of a digit list read in base 10. -/
def digitsToNat (l : List Char) : Nat :=
  l.foldl (fun a c => a * 10 + (c.toNat - 48)) 0

/-- Model of Python `float(s)` on a string: optional sign, an integer part,
and an optional fractional part after a decimal point (the decimal forms
accepted by `float`); anything else - such as `"abc"` - fails, which the
source's `except (ValueError, TypeError)` turns into `0.0`. -/
def parseFloat (s : String) : Option ℚ :=
  let cs := s.toList
  let signAndRest : ℚ × List Char :=
    match cs with
    | '-' :: rest => (-1, rest)
    | '+' :: rest => (1, rest)
    | _ => (1, cs)
  let sign := signAndRest.1
  let body := signAndRest.2
  let intPart := body.takeWhile Char.isDigit
  let rest := body.dropWhile Char.isDigit
  match rest with
  | [] => if intPart = [] then none else some (sign * digitsToNat intPart)
  | '.' :: frac =>
      if frac.all Char.isDigit && !(intPart = [] && frac = []) then
        some (sign * ((digitsToNat intPart : ℚ) +
          (digitsToNat frac : ℚ) / (10 : ℚ) ^ frac.length))
      else none
  | _ => none

/-- Python `str(v)` as applied to a field value before date parsing;
`str(None) = "None"`. -/
def pyStr (v : Option Value) : String :=
  match v with
  | none => "None"
  | some (Value.vStr s) => s
  | some (Value.vNum q) => toString q

/-- The coercion block `try: float(data[f]) except (ValueError, TypeError): 0.0`:
numbers pass through, parsable strings are parsed, everything else
(including a null field) becomes `0.0`. -/
def pyFloat (v : Option Value) : ℚ :=
  match v with
  | none => 0
  | some (Value.vNum q) => q
  | some (Value.vStr s) => (parseFloat s).getD 0

/-- Gregorian leap-year test, as `datetime` applies when checking a day of month. -/
def isLeapYear (y : Nat) : Bool :=
  (y % 4 = 0 && y % 100 != 0) || y % 400 = 0

/-- Number of days of month `m` of year `y`. -/
def daysInMonth (y m : Nat) : Nat :=
  if m = 2 then (if isLeapYear y then 29 else 28)
  else if m = 4 || m = 6 || m = 9 || m = 11 then 30
  else 31

/-- A non-empty all-digit group. -/
def allDigits (l : List Char) : Bool :=
  !l.isEmpty && l.all Char.isDigit

/-- Splitting a character list on `-` separators, as the `-` literals of the
format string `"%Y-%m-%d"` consume the dashes of the input. -/
def splitDash : List Char → List (List Char)
  | [] => [[]]
  | c :: rest =>
      match splitDash rest with
      | [] => if c = '-' then [[], []] else [[c]]
      | g :: gs => if c = '-' then [] :: g :: gs else (c :: g) :: gs

/-- Model of `datetime.strptime(s, "%Y-%m-%d")` succeeding: three dash-separated
digit groups (year up to 4 digits and at least 1, month and day up to 2 digits,
as `strptime` accepts unpadded fields), with the month in `1..12` and the day a
valid day of that month, the whole string consumed. -/
def validDate (s : String) : Bool :=
  match splitDash s.toList with
  | [y, m, d] =>
      allDigits y && allDigits m && allDigits d &&
      decide (y.length ≤ 4) && decide (m.length ≤ 2) && decide (d.length ≤ 2) &&
      decide (1 ≤ digitsToNat y) &&
      decide (1 ≤ digitsToNat m) && decide (digitsToNat m ≤ 12) &&
      decide (1 ≤ digitsToNat d) &&
      decide (digitsToNat d ≤ daysInMonth (digitsToNat y) (digitsToNat m))
  | _ => false

/-- Renders `q` with two decimal places, modelling the `:.2f` format used in
the report messages. -/
def fmt2 (q : ℚ) : String :=
  let n : ℤ := (q * 100 + 1 / 2).floor
  (if n < 0 then "-" else "") ++ toString (n.natAbs / 100) ++ "." ++
    (if n.natAbs % 100 < 10 then "0" else "") ++ toString (n.natAbs % 100)

/-- Renders `q` with one decimal place, modelling the `:.1f` format. -/
def fmt1 (q : ℚ) : String :=
  let n : ℤ := (q * 10 + 1 / 2).floor
  (if n < 0 then "-" else "") ++ toString (n.natAbs / 10) ++ "." ++ toString (n.natAbs % 10)

/-- `required = ["bill_id", "vendor", "date", "amount", "tax"]`. -/
def requiredList : List String := ["bill_id", "vendor", "date", "amount", "tax"]

/-- `missing = [f for f in required if data.get(f) is None]`. -/
def missingFields (data : ReceiptRecord) : List String :=
  requiredList.filter (fun f => (data.get f).isNone)

/-- The success result of the Required Fields rule. -/
def requiredOkRes : RuleResult :=
  ⟨"Required Fields", "success", "All required fields present"⟩

/-- The Date Format rule: parse `str(data["date"])` as `%Y-%m-%d`. -/
def dateRule (data : ReceiptRecord) : RuleResult :=
  if validDate (pyStr data.date) then
    ⟨"Date Format", "success", "Valid date: " ++ pyStr data.date⟩
  else
    ⟨"Date Format", "error", "Invalid date format: " ++ pyStr data.date⟩

/-- The Total Validation rule on the coerced amount. -/
def totalRule (amount : ℚ) : RuleResult :=
  if amount > 0 then
    ⟨"Total Validation", "success", "Amount detected: ₹" ++ fmt2 amount⟩
  else
    ⟨"Total Validation", "error", "Invalid amount value"⟩

/-- The `for subtotal in [subtotal_option_1, subtotal_option_2]` loop: skip
candidates `<= 0`, return the first `(used_subtotal, actual_rate)` whose rate
is within `TOLERANCE` of `EXPECTED_TAX_RATE`, else `none` (`valid = False`). -/
def findTaxMatch (tax : ℚ) : List ℚ → Option (ℚ × ℚ)
  | [] => none
  | subtotal :: rest =>
      if subtotal ≤ 0 then findTaxMatch tax rest
      else
        let rate := tax / subtotal
        if |rate - EXPECTED_TAX_RATE| ≤ TOLERANCE then some (subtotal, rate)
        else findTaxMatch tax rest

/-- The Tax Rate Validation rule on the coerced amount and tax. -/
def taxRule (amount tax : ℚ) : RuleResult :=
  if tax = 0 then
    ⟨"Tax Rate Validation", "success", "No tax applied (valid)"⟩
  else
    match findTaxMatch tax [amount - tax, amount] with
    | some (used_subtotal, actual_rate) =>
        ⟨"Tax Rate Validation", "success",
          "Tax rate OK (" ++ fmt2 (actual_rate * 100) ++ "%, Subtotal ₹" ++
            fmt2 used_subtotal ++ ")"⟩
    | none =>
        ⟨"Tax Rate Validation", "error",
          "Tax mismatch. Expected ~" ++ fmt1 (EXPECTED_TAX_RATE * 100) ++
            "% but got ₹" ++ fmt2 tax ++ " on amount ₹" ++ fmt2 amount⟩

/-- Whether the Tax Rate Validation rule succeeds (the source leaves `passed`
untouched exactly in the `tax == 0` branch and the `valid = True` outcome). -/
def taxOk (amount tax : ℚ) : Bool :=
  decide (tax = 0) || (findTaxMatch tax [amount - tax, amount]).isSome

/-- The error result of the Duplicate Detection rule. -/
def dupFoundRes : RuleResult :=
  ⟨"Duplicate Detection", "error", "Duplicate receipt found"⟩

/-- The success result of the Duplicate Detection rule. -/
def dupOkRes : RuleResult :=
  ⟨"Duplicate Detection", "success", "No duplicate found"⟩

/-- The four results appended by the unconditional rules once the
required-fields gate has passed, in source order, on the coerced
`amount` and `tax`. -/
def coreResults (data : ReceiptRecord) : List RuleResult :=
  [requiredOkRes, dateRule data, totalRule (pyFloat data.amount),
   taxRule (pyFloat data.amount) (pyFloat data.tax)]

/-- The value of the `passed` accumulator after the four unconditional rules:
`True` initially, forced to `False` by each failing rule, i.e. the conjunction
of the three fallible rule conditions. -/
def corePassed (data : ReceiptRecord) : Bool :=
  validDate (pyStr data.date) && decide (pyFloat data.amount > 0) &&
    taxOk (pyFloat data.amount) (pyFloat data.tax)

/-- `validate_receipt(data, skip_duplicate)` with the external collaborator
`receipt_exists` passed explicitly; an `Except.error` of the collaborator
propagates (nothing in the function catches it), every other anomaly is
degraded into a `RuleResult`.  The record fields are provably non-null when
the lookup argument is built (the required-fields gate has passed), so the
`getD` default is never consulted. -/
def validate_receipt {E : Type} (receipt_exists : Value → Except E Bool)
    (data : ReceiptRecord) (skip_duplicate : Bool) : Except E ValidationReport :=
  let missing := missingFields data
  if missing ≠ [] then
    Except.ok ⟨false,
      [⟨"Required Fields", "error",
        "Missing fields: " ++ String.intercalate ", " missing⟩]⟩
  else if skip_duplicate then
    Except.ok ⟨corePassed data, coreResults data⟩
  else
    match receipt_exists (data.bill_id.getD (Value.vStr "")) with
    | Except.error e => Except.error e
    | Except.ok true => Except.ok ⟨false, coreResults data ++ [dupFoundRes]⟩
    | Except.ok false => Except.ok ⟨corePassed data, coreResults data ++ [dupOkRes]⟩

/-! ### Structural lemmas about the embedding -/

/-- The required-fields gate passes exactly when all five fields are non-null. -/
theorem missingFields_eq_nil_iff (data : ReceiptRecord) :
    missingFields data = [] ↔
      data.bill_id.isSome ∧ data.vendor.isSome ∧ data.date.isSome ∧
        data.amount.isSome ∧ data.tax.isSome := by
  rcases data with ⟨b, v, d, a, t⟩
  cases b <;> cases v <;> cases d <;> cases a <;> cases t <;>
    simp [missingFields, requiredList, ReceiptRecord.get]

/-- Once the gate has passed, `validate_receipt` is the duplicate-detection
dispatch over the four unconditional rules. -/
theorem validate_receipt_gate_pass {E : Type} (receipt_exists : Value → Except E Bool)
    (data : ReceiptRecord) (skip_duplicate : Bool) (hgate : missingFields data = []) :
    validate_receipt receipt_exists data skip_duplicate =
      if skip_duplicate then Except.ok ⟨corePassed data, coreResults data⟩
      else
        match receipt_exists (data.bill_id.getD (Value.vStr "")) with
        | Except.error e => Except.error e
        | Except.ok true => Except.ok ⟨false, coreResults data ++ [dupFoundRes]⟩
        | Except.ok false => Except.ok ⟨corePassed data, coreResults data ++ [dupOkRes]⟩ := by
  simp [validate_receipt, hgate]

/-- Case analysis of a successful run once the gate has passed. -/
theorem validate_receipt_ok_cases {E : Type} (receipt_exists : Value → Except E Bool)
    (data : ReceiptRecord) (skip_duplicate : Bool) (rep : ValidationReport)
    (hok : validate_receipt receipt_exists data skip_duplicate = Except.ok rep)
    (hgate : missingFields data = []) :
    (skip_duplicate = true ∧ rep = ⟨corePassed data, coreResults data⟩) ∨
    (skip_duplicate = false ∧
      receipt_exists (data.bill_id.getD (Value.vStr "")) = Except.ok true ∧
      rep = ⟨false, coreResults data ++ [dupFoundRes]⟩) ∨
    (skip_duplicate = false ∧
      receipt_exists (data.bill_id.getD (Value.vStr "")) = Except.ok false ∧
      rep = ⟨corePassed data, coreResults data ++ [dupOkRes]⟩) := by
  rw [validate_receipt_gate_pass receipt_exists data skip_duplicate hgate] at hok
  cases skip_duplicate with
  | true =>
      left
      simp only [if_true, Except.ok.injEq] at hok
      exact ⟨rfl, hok.symm⟩
  | false =>
      right
      cases hex : receipt_exists (data.bill_id.getD (Value.vStr "")) with
      | error e => rw [if_neg (by simp)] at hok; rw [hex] at hok; simp at hok
      | ok b =>
          rw [if_neg (by simp)] at hok
          rw [hex] at hok
          cases b with
          | true =>
              left
              simp only [Except.ok.injEq] at hok
              exact ⟨rfl, rfl, hok.symm⟩
          | false =>
              right
              simp only [Except.ok.injEq] at hok
              exact ⟨rfl, rfl, hok.symm⟩

@[simp] theorem dateRule_title (data : ReceiptRecord) :
    (dateRule data).title = "Date Format" := by
  unfold dateRule; split <;> rfl

@[simp] theorem totalRule_title (amount : ℚ) :
    (totalRule amount).title = "Total Validation" := by
  unfold totalRule; split <;> rfl

@[simp] theorem taxRule_title (amount tax : ℚ) :
    (taxRule amount tax).title = "Tax Rate Validation" := by
  unfold taxRule
  split
  · rfl
  · split <;> rfl

/-- The Date Format rule succeeds exactly on a parsable date. -/
theorem dateRule_status (data : ReceiptRecord) :
    (dateRule data).status = "success" ↔ validDate (pyStr data.date) = true := by
  unfold dateRule; split <;> simp_all

/-- The Total Validation rule succeeds exactly on a positive coerced amount. -/
theorem totalRule_status (amount : ℚ) :
    (totalRule amount).status = "success" ↔ amount > 0 := by
  unfold totalRule; split <;> simp_all

/-- The Tax Rate Validation rule succeeds exactly when `taxOk` holds. -/
theorem taxRule_status (amount tax : ℚ) :
    (taxRule amount tax).status = "success" ↔ taxOk amount tax = true := by
  by_cases h : tax = 0
  · simp [taxRule, taxOk, h]
  · cases hm : findTaxMatch tax [amount - tax, amount] with
    | none => simp [taxRule, taxOk, h, hm]
    | some p =>
        obtain ⟨u, r⟩ := p
        simp [taxRule, taxOk, h, hm]

/-- `passed` after the four unconditional rules is the conjunction of their
statuses. -/
theorem corePassed_iff (data : ReceiptRecord) :
    corePassed data = true ↔ ∀ res ∈ coreResults data, res.status = "success" := by
  simp [coreResults, corePassed, List.forall_mem_cons, Bool.and_eq_true,
    decide_eq_true_eq, dateRule_status, totalRule_status, taxRule_status,
    requiredOkRes]
  tauto

/-- A candidate `≤ 0` is skipped. -/
theorem findTaxMatch_cons_of_skip (tax s : ℚ) (l : List ℚ) (h : s ≤ 0) :
    findTaxMatch tax (s :: l) = findTaxMatch tax l := by
  simp [findTaxMatch, h]

/-- The first positive candidate within the tolerance band is returned. -/
theorem findTaxMatch_cons_of_hit (tax s : ℚ) (l : List ℚ) (h1 : 0 < s)
    (h2 : |tax / s - EXPECTED_TAX_RATE| ≤ TOLERANCE) :
    findTaxMatch tax (s :: l) = some (s, tax / s) := by
  simp [findTaxMatch, not_le.2 h1, h2]

/-- A positive candidate outside the tolerance band is passed over. -/
theorem findTaxMatch_cons_of_miss (tax s : ℚ) (l : List ℚ) (h1 : 0 < s)
    (h2 : ¬ |tax / s - EXPECTED_TAX_RATE| ≤ TOLERANCE) :
    findTaxMatch tax (s :: l) = findTaxMatch tax l := by
  simp [findTaxMatch, not_le.2 h1, h2]

/-- With a strictly negative coerced tax no candidate can qualify: every
positive subtotal yields a negative rate, which is further than `TOLERANCE`
from `EXPECTED_TAX_RATE`. -/
theorem findTaxMatch_eq_none_of_neg (tax : ℚ) (htax : tax < 0) (l : List ℚ) :
    findTaxMatch tax l = none := by
  induction l with
  | nil => rfl
  | cons s rest ih =>
      by_cases hs : s ≤ 0
      · rw [findTaxMatch_cons_of_skip tax s rest hs, ih]
      · have hs' : 0 < s := not_le.1 hs
        have hrate : tax / s < 0 := div_neg_of_neg_of_pos htax hs'
        have hno : ¬ |tax / s - EXPECTED_TAX_RATE| ≤ TOLERANCE := by
          intro hc
          rw [abs_le] at hc
          have hc1 := hc.1
          simp only [EXPECTED_TAX_RATE, TOLERANCE] at hc1
          linarith
        rw [findTaxMatch_cons_of_miss tax s rest hs' hno, ih]

/-! ### Concrete records and lookups used to instantiate the theorems -/

/-- A well-formed receipt: amount `100`, no tax, a valid date. -/
def dataOk : ReceiptRecord :=
  ⟨some (Value.vStr "B1"), some (Value.vStr "Acme"),
   some (Value.vStr "2023-05-10"), some (Value.vNum 100), some (Value.vNum 0)⟩

/-- A receipt whose `vendor` field is null. -/
def dataNoVendor : ReceiptRecord :=
  ⟨some (Value.vStr "B2"), none, some (Value.vStr "2023-05-10"),
   some (Value.vNum 100), some (Value.vNum 0)⟩

/-- A receipt with the non-numeric amount `"abc"`. -/
def dataAbc : ReceiptRecord :=
  ⟨some (Value.vStr "B3"), some (Value.vStr "Acme"),
   some (Value.vStr "2023-05-10"), some (Value.vStr "abc"), some (Value.vNum 0)⟩

/-- A receipt with a negative coerced tax. -/
def dataNegTax : ReceiptRecord :=
  ⟨some (Value.vStr "B4"), some (Value.vStr "Acme"),
   some (Value.vStr "2023-05-10"), some (Value.vNum 100), some (Value.vNum (-5))⟩

/-- A receipt matching the spec's worked example `amount = 108, tax = 8`. -/
def dataTax : ReceiptRecord :=
  ⟨some (Value.vStr "B5"), some (Value.vStr "Acme"),
   some (Value.vStr "2023-05-10"), some (Value.vNum 108), some (Value.vNum 8)⟩

/-- A lookup that reports no stored duplicate. -/
def exNoDup : Value → Except Unit Bool := fun _ => Except.ok false

/-- A lookup that reports an existing duplicate for every id. -/
def exDup : Value → Except Unit Bool := fun _ => Except.ok true

/-- A lookup that raises on every id. -/
def exRaise : Value → Except Unit Bool := fun _ => Except.error ()

/-- A lookup that reports a duplicate exactly for the id `"X"`; it agrees with
`exNoDup` on `dataOk`'s id `"B1"` but not everywhere. -/
def exOnlyX : Value → Except Unit Bool :=
  fun v => Except.ok (decide (v = Value.vStr "X"))

/-- The report of a gate-passing run in skip-duplicate mode. -/
def repSkip (data : ReceiptRecord) : ValidationReport :=
  ⟨corePassed data, coreResults data⟩

/-- The report of a gate-passing run whose duplicate lookup returned `false`. -/
def repNoDup (data : ReceiptRecord) : ValidationReport :=
  ⟨corePassed data, coreResults data ++ [dupOkRes]⟩

/-- The report of a gate-passing run whose duplicate lookup returned `true`. -/
def repDup (data : ReceiptRecord) : ValidationReport :=
  ⟨false, coreResults data ++ [dupFoundRes]⟩

/-! ### The claims -/

/-- C2: for every input record and every value of the skip-duplicate flag
(and every lookup collaborator), the report's `passed` field is true iff every
`RuleResult` in the report's `results` sequence has status `"success"`. -/
theorem passed_iff_all_success {E : Type} (receipt_exists : Value → Except E Bool)
    (data : ReceiptRecord) (skip_duplicate : Bool) (rep : ValidationReport)
    (hok : validate_receipt receipt_exists data skip_duplicate = Except.ok rep) :
    rep.passed = true ↔ ∀ res ∈ rep.results, res.status = "success" := by
  by_cases hgate : missingFields data = []
  · rcases validate_receipt_ok_cases receipt_exists data skip_duplicate rep hok hgate with
      ⟨-, rfl⟩ | ⟨-, -, rfl⟩ | ⟨-, -, rfl⟩
    · exact corePassed_iff data
    · apply iff_of_false
      · simp
      · intro hall
        have hdup := hall dupFoundRes (by simp)
        simp [dupFoundRes] at hdup
    · dsimp only
      rw [corePassed_iff data]
      constructor
      · intro h res hres
        rcases List.mem_append.1 hres with hres | hres
        · exact h res hres
        · rcases List.mem_singleton.1 hres with rfl
          rfl
      · intro h res hres
        exact h res (List.mem_append.2 (Or.inl hres))
  · simp only [validate_receipt] at hok
    rw [if_pos hgate, Except.ok.injEq] at hok
    subst hok
    simp

/-- C3: whenever one of the five required fields is absent or null,
`validate_receipt` returns one single error `RuleResult` naming the missing
fields and `passed = false`; the right-hand side does not mention the lookup
collaborator, so no other rule runs and the existence lookup is not invoked
(the equation holds even for an always-raising lookup). -/
theorem missing_fields_short_circuit {E : Type} (receipt_exists : Value → Except E Bool)
    (data : ReceiptRecord) (skip_duplicate : Bool)
    (h : data.bill_id = none ∨ data.vendor = none ∨ data.date = none ∨
      data.amount = none ∨ data.tax = none) :
    validate_receipt receipt_exists data skip_duplicate =
      Except.ok ⟨false, [⟨"Required Fields", "error",
        "Missing fields: " ++ String.intercalate ", " (missingFields data)⟩]⟩ := by
  have hne : missingFields data ≠ [] := by
    rw [Ne, missingFields_eq_nil_iff]
    rcases h with h | h | h | h | h <;> simp [h]
  simp only [validate_receipt]
  rw [if_pos hne]

/-- Witness for C3: on a record with a null `vendor`, even an always-raising
lookup is never consulted and the single-error report is produced. -/
theorem missing_fields_short_circuit_witness :
    validate_receipt exRaise dataNoVendor false =
      Except.ok ⟨false, [⟨"Required Fields", "error",
        "Missing fields: " ++ String.intercalate ", " (missingFields dataNoVendor)⟩]⟩ :=
  missing_fields_short_circuit exRaise dataNoVendor false (Or.inr (Or.inl rfl))

/-- C4: `validate_receipt` never fails of its own: for every record,
flag and lookup it either returns a report, or propagates exactly the fault
the external existence lookup raised on the record's `bill_id` (which
requires the skip flag to be off). -/
theorem validate_receipt_total_or_lookup_fault {E : Type}
    (receipt_exists : Value → Except E Bool)
    (data : ReceiptRecord) (skip_duplicate : Bool) :
    (∃ rep, validate_receipt receipt_exists data skip_duplicate = Except.ok rep) ∨
    (∃ e v, data.bill_id = some v ∧ receipt_exists v = Except.error e ∧
      skip_duplicate = false ∧
      validate_receipt receipt_exists data skip_duplicate = Except.error e) := by
  by_cases hgate : missingFields data = []
  · rw [validate_receipt_gate_pass receipt_exists data skip_duplicate hgate]
    cases skip_duplicate with
    | true => exact Or.inl ⟨⟨corePassed data, coreResults data⟩, by simp⟩
    | false =>
        have hb : data.bill_id.isSome := ((missingFields_eq_nil_iff data).1 hgate).1
        obtain ⟨v, hv⟩ := Option.isSome_iff_exists.1 hb
        rw [hv]
        cases hex : receipt_exists v with
        | error e =>
            right
            exact ⟨e, v, rfl, hex, rfl, by simp [hex]⟩
        | ok b =>
            cases b with
            | false =>
                exact Or.inl ⟨⟨corePassed data, coreResults data ++ [dupOkRes]⟩,
                  by simp [hex]⟩
            | true =>
                exact Or.inl ⟨⟨false, coreResults data ++ [dupFoundRes]⟩,
                  by simp [hex]⟩
  · exact Or.inl ⟨⟨false, [⟨"Required Fields", "error",
      "Missing fields: " ++ String.intercalate ", " (missingFields data)⟩]⟩,
      by simp only [validate_receipt]; rw [if_pos hgate]⟩

/-- C9: `validate_receipt` reads nothing but its arguments and the lookup's
answer for the record's `bill_id`: two lookups agreeing there yield identical
reports, so two calls on the same record with a deterministic collaborator are
identical. -/
theorem validate_receipt_deterministic {E : Type} (ex1 ex2 : Value → Except E Bool)
    (data : ReceiptRecord) (skip_duplicate : Bool)
    (h : ∀ v, data.bill_id = some v → ex1 v = ex2 v) :
    validate_receipt ex1 data skip_duplicate = validate_receipt ex2 data skip_duplicate := by
  by_cases hgate : missingFields data = []
  · rw [validate_receipt_gate_pass ex1 data skip_duplicate hgate,
      validate_receipt_gate_pass ex2 data skip_duplicate hgate]
    cases skip_duplicate with
    | true => rfl
    | false =>
        have hb : data.bill_id.isSome := ((missingFields_eq_nil_iff data).1 hgate).1
        obtain ⟨v, hv⟩ := Option.isSome_iff_exists.1 hb
        rw [hv]
        simp [h v hv]
  · simp only [validate_receipt]
    rw [if_pos hgate, if_pos hgate]

/-- Witness for C9: `exNoDup` and `exOnlyX` differ on the id `"X"` but agree on
`dataOk`'s id `"B1"`, so the two runs coincide. -/
theorem validate_receipt_deterministic_witness :
    validate_receipt exNoDup dataOk false = validate_receipt exOnlyX dataOk false :=
  validate_receipt_deterministic exNoDup exOnlyX dataOk false
    (fun v hv => by
      have hv' : Value.vStr "B1" = v := Option.some.inj hv
      rw [← hv']
      rfl)

/-- Witness for C2 on a concrete successful run. -/
theorem passed_iff_all_success_witness :
    (repNoDup dataOk).passed = true ↔
      ∀ res ∈ (repNoDup dataOk).results, res.status = "success" :=
  passed_iff_all_success exNoDup dataOk false (repNoDup dataOk)
    (by simp [validate_receipt, repNoDup, dataOk, exNoDup, missingFields,
      requiredList, ReceiptRecord.get])

/-- C5: once the gate passes, a `true` existence lookup with the flag off
puts the Duplicate Detection error into the report and forces
`passed = false`; with the flag on no Duplicate Detection result is emitted
and the report does not depend on the lookup at all. -/
theorem duplicate_detection_spec {E : Type} (receipt_exists : Value → Except E Bool)
    (data : ReceiptRecord) (rep rep' : ValidationReport) (v : Value)
    (hgate : missingFields data = []) (hb : data.bill_id = some v) :
    (receipt_exists v = Except.ok true →
      validate_receipt receipt_exists data false = Except.ok rep →
      dupFoundRes ∈ rep.results ∧ rep.passed = false) ∧
    (validate_receipt receipt_exists data true = Except.ok rep' →
      ∀ res ∈ rep'.results, res.title ≠ "Duplicate Detection") ∧
    (∀ ex2 : Value → Except E Bool,
      validate_receipt receipt_exists data true = validate_receipt ex2 data true) := by
  refine ⟨?_, ?_, ?_⟩
  · intro hex hok
    rcases validate_receipt_ok_cases receipt_exists data false rep hok hgate with
      ⟨h, -⟩ | ⟨-, -, rfl⟩ | ⟨-, hex', rfl⟩
    · simp at h
    · exact ⟨by simp, rfl⟩
    · rw [hb, Option.getD_some, hex] at hex'
      simp at hex'
  · intro hok
    rcases validate_receipt_ok_cases receipt_exists data true rep' hok hgate with
      ⟨-, rfl⟩ | ⟨h, -, -⟩ | ⟨h, -, -⟩
    · intro res hres
      simp only [coreResults, List.mem_cons, List.not_mem_nil, or_false] at hres
      rcases hres with rfl | rfl | rfl | rfl <;> simp [requiredOkRes]
    · simp at h
    · simp at h
  · intro ex2
    rw [validate_receipt_gate_pass receipt_exists data true hgate,
      validate_receipt_gate_pass ex2 data true hgate]
    rfl

/-- Witness for C5 at a concrete record, with an always-duplicate lookup. -/
theorem duplicate_detection_spec_witness :
    (exDup (Value.vStr "B1") = Except.ok true →
      validate_receipt exDup dataOk false = Except.ok (repDup dataOk) →
      dupFoundRes ∈ (repDup dataOk).results ∧ (repDup dataOk).passed = false) ∧
    (validate_receipt exDup dataOk true = Except.ok (repSkip dataOk) →
      ∀ res ∈ (repSkip dataOk).results, res.title ≠ "Duplicate Detection") ∧
    (∀ ex2 : Value → Except Unit Bool,
      validate_receipt exDup dataOk true = validate_receipt ex2 dataOk true) :=
  duplicate_detection_spec exDup dataOk (repDup dataOk) (repSkip dataOk)
    (Value.vStr "B1") (by decide) rfl

/-- C8: once the gate passes, the results carry exactly the five rule
titles in the fixed source order, Duplicate Detection omitted in
skip-duplicate mode; a Date Format failure forces `passed = false` yet the
subsequent rules are still present in the report. -/
theorem rule_order_fixed {E : Type} (receipt_exists : Value → Except E Bool)
    (data : ReceiptRecord) (skip_duplicate : Bool) (rep : ValidationReport)
    (hok : validate_receipt receipt_exists data skip_duplicate = Except.ok rep)
    (hgate : missingFields data = []) :
    rep.results.map RuleResult.title =
      ["Required Fields", "Date Format", "Total Validation", "Tax Rate Validation"] ++
        (if skip_duplicate = true then [] else ["Duplicate Detection"]) ∧
    (validDate (pyStr data.date) = false → rep.passed = false) := by
  rcases validate_receipt_ok_cases receipt_exists data skip_duplicate rep hok hgate with
    ⟨rfl, rfl⟩ | ⟨rfl, -, rfl⟩ | ⟨rfl, -, rfl⟩
  · exact ⟨by simp [coreResults, requiredOkRes], fun h => by
      show corePassed data = false
      simp [corePassed, h]⟩
  · exact ⟨by simp [coreResults, requiredOkRes, dupFoundRes], fun _ => rfl⟩
  · exact ⟨by simp [coreResults, requiredOkRes, dupOkRes], fun h => by
      show corePassed data = false
      simp [corePassed, h]⟩

/-- Witness for C8 on a concrete run with the duplicate rule included. -/
theorem rule_order_fixed_witness :
    (repNoDup dataOk).results.map RuleResult.title =
      ["Required Fields", "Date Format", "Total Validation", "Tax Rate Validation"] ++
        (if false = true then [] else ["Duplicate Detection"]) ∧
    (validDate (pyStr dataOk.date) = false → (repNoDup dataOk).passed = false) :=
  rule_order_fixed exNoDup dataOk false (repNoDup dataOk)
    (by simp [validate_receipt, repNoDup, dataOk, exNoDup, missingFields,
      requiredList, ReceiptRecord.get])
    (by decide)

/-- C7: after the gate the Total and Tax Rate rules consume the coerced
`amount` and `tax`; the coercion emits no `RuleResult` of its own (the report
has exactly the rule results), and a record with `amount = "abc"` coerces to
`0.0` and fails Total Validation with "Invalid amount value". -/
theorem numeric_coercion_spec {E : Type} (receipt_exists : Value → Except E Bool)
    (data : ReceiptRecord) (skip_duplicate : Bool) (rep : ValidationReport)
    (hok : validate_receipt receipt_exists data skip_duplicate = Except.ok rep)
    (hgate : missingFields data = []) :
    rep.results.length = (if skip_duplicate = true then 4 else 5) ∧
    rep.results.get? 2 = some (totalRule (pyFloat data.amount)) ∧
    rep.results.get? 3 = some (taxRule (pyFloat data.amount) (pyFloat data.tax)) ∧
    (data.amount = some (Value.vStr "abc") →
      pyFloat data.amount = 0 ∧
      rep.results.get? 2 = some ⟨"Total Validation", "error", "Invalid amount value"⟩) := by
  have habc : data.amount = some (Value.vStr "abc") → pyFloat data.amount = 0 := by
    intro h
    rw [h]
    rfl
  have htot : data.amount = some (Value.vStr "abc") →
      totalRule (pyFloat data.amount) =
        ⟨"Total Validation", "error", "Invalid amount value"⟩ := by
    intro h
    rw [habc h]
    simp [totalRule]
  rcases validate_receipt_ok_cases receipt_exists data skip_duplicate rep hok hgate with
    ⟨rfl, rfl⟩ | ⟨rfl, -, rfl⟩ | ⟨rfl, -, rfl⟩
  · refine ⟨rfl, rfl, rfl, fun h => ⟨habc h, ?_⟩⟩
    show (coreResults data).get? 2 = some ⟨"Total Validation", "error", "Invalid amount value"⟩
    rw [show (coreResults data).get? 2 = some (totalRule (pyFloat data.amount)) from rfl,
      htot h]
  · refine ⟨rfl, rfl, rfl, fun h => ⟨habc h, ?_⟩⟩
    show (coreResults data ++ [dupFoundRes]).get? 2 =
      some ⟨"Total Validation", "error", "Invalid amount value"⟩
    rw [show (coreResults data ++ [dupFoundRes]).get? 2 =
      some (totalRule (pyFloat data.amount)) from rfl, htot h]
  · refine ⟨rfl, rfl, rfl, fun h => ⟨habc h, ?_⟩⟩
    show (coreResults data ++ [dupOkRes]).get? 2 =
      some ⟨"Total Validation", "error", "Invalid amount value"⟩
    rw [show (coreResults data ++ [dupOkRes]).get? 2 =
      some (totalRule (pyFloat data.amount)) from rfl, htot h]

/-- Witness for C7 at the record whose amount is the string `"abc"`. -/
theorem numeric_coercion_spec_witness :
    (repSkip dataAbc).results.length = (if true = true then 4 else 5) ∧
    (repSkip dataAbc).results.get? 2 = some (totalRule (pyFloat dataAbc.amount)) ∧
    (repSkip dataAbc).results.get? 3 =
      some (taxRule (pyFloat dataAbc.amount) (pyFloat dataAbc.tax)) ∧
    (dataAbc.amount = some (Value.vStr "abc") →
      pyFloat dataAbc.amount = 0 ∧
      (repSkip dataAbc).results.get? 2 =
        some ⟨"Total Validation", "error", "Invalid amount value"⟩) :=
  numeric_coercion_spec exNoDup dataAbc true (repSkip dataAbc)
    (by simp [validate_receipt, repSkip, dataAbc, missingFields,
      requiredList, ReceiptRecord.get])
    (by decide)

/-- C10: a strictly negative coerced tax always fails the Tax Rate rule
and the report: the zero-tax branch is not taken, and a positive candidate
subtotal yields a negative rate, never within the tolerance band. -/
theorem negative_tax_fails {E : Type} (receipt_exists : Value → Except E Bool)
    (data : ReceiptRecord) (skip_duplicate : Bool) (rep : ValidationReport)
    (hok : validate_receipt receipt_exists data skip_duplicate = Except.ok rep)
    (hgate : missingFields data = []) (htax : pyFloat data.tax < 0) :
    (rep.results.get? 3).map RuleResult.status = some "error" ∧ rep.passed = false := by
  have hne : pyFloat data.tax ≠ 0 := ne_of_lt htax
  have hnone : findTaxMatch (pyFloat data.tax)
      [pyFloat data.amount - pyFloat data.tax, pyFloat data.amount] = none :=
    findTaxMatch_eq_none_of_neg _ htax _
  have hst : (taxRule (pyFloat data.amount) (pyFloat data.tax)).status = "error" := by
    simp [taxRule, hne, hnone]
  have hko : taxOk (pyFloat data.amount) (pyFloat data.tax) = false := by
    simp [taxOk, hne, hnone]
  rcases validate_receipt_ok_cases receipt_exists data skip_duplicate rep hok hgate with
    ⟨rfl, rfl⟩ | ⟨rfl, -, rfl⟩ | ⟨rfl, -, rfl⟩
  · refine ⟨?_, ?_⟩
    · show ((coreResults data).get? 3).map RuleResult.status = some "error"
      rw [show (coreResults data).get? 3 =
        some (taxRule (pyFloat data.amount) (pyFloat data.tax)) from rfl]
      simp [hst]
    · show corePassed data = false
      simp [corePassed, hko]
  · refine ⟨?_, rfl⟩
    show ((coreResults data ++ [dupFoundRes]).get? 3).map RuleResult.status = some "error"
    rw [show (coreResults data ++ [dupFoundRes]).get? 3 =
      some (taxRule (pyFloat data.amount) (pyFloat data.tax)) from rfl]
    simp [hst]
  · refine ⟨?_, ?_⟩
    · show ((coreResults data ++ [dupOkRes]).get? 3).map RuleResult.status = some "error"
      rw [show (coreResults data ++ [dupOkRes]).get? 3 =
        some (taxRule (pyFloat data.amount) (pyFloat data.tax)) from rfl]
      simp [hst]
    · show corePassed data = false
      simp [corePassed, hko]

/-- Witness for C10 at the record whose tax is `-5`. -/
theorem negative_tax_fails_witness :
    ((repSkip dataNegTax).results.get? 3).map RuleResult.status = some "error" ∧
    (repSkip dataNegTax).passed = false :=
  negative_tax_fails exNoDup dataNegTax true (repSkip dataNegTax)
    (by simp [validate_receipt, repSkip, dataNegTax, missingFields,
      requiredList, ReceiptRecord.get])
    (by decide)
    (by norm_num [pyFloat, dataNegTax])

/-- The behaviour the specification ascribes to the Tax Rate Validation rule,
stated over the report: with a zero coerced tax the rule succeeds
unconditionally; otherwise the candidates `amount - tax` and `amount` are
tried in that order, a candidate `≤ 0` is skipped, the rule succeeds on the
first candidate whose rate is within `0.05` of `0.08` and records that
candidate's rate and subtotal, and if no candidate qualifies the rule is an
error and the report fails. -/
def TaxRateRuleSpec (data : ReceiptRecord) (rep : ValidationReport) : Prop :=
  let amount := pyFloat data.amount
  let tax := pyFloat data.tax
  (tax = 0 → rep.results.get? 3 =
    some ⟨"Tax Rate Validation", "success", "No tax applied (valid)"⟩) ∧
  (tax ≠ 0 →
    (0 < amount - tax ∧ |tax / (amount - tax) - 8 / 100| ≤ 5 / 100 →
      rep.results.get? 3 = some ⟨"Tax Rate Validation", "success",
        "Tax rate OK (" ++ fmt2 (tax / (amount - tax) * 100) ++ "%, Subtotal ₹" ++
          fmt2 (amount - tax) ++ ")"⟩) ∧
    (¬(0 < amount - tax ∧ |tax / (amount - tax) - 8 / 100| ≤ 5 / 100) →
      0 < amount ∧ |tax / amount - 8 / 100| ≤ 5 / 100 →
      rep.results.get? 3 = some ⟨"Tax Rate Validation", "success",
        "Tax rate OK (" ++ fmt2 (tax / amount * 100) ++ "%, Subtotal ₹" ++
          fmt2 amount ++ ")"⟩) ∧
    (¬(0 < amount - tax ∧ |tax / (amount - tax) - 8 / 100| ≤ 5 / 100) →
      ¬(0 < amount ∧ |tax / amount - 8 / 100| ≤ 5 / 100) →
      (rep.results.get? 3).map RuleResult.status = some "error" ∧ rep.passed = false))

/-- C1: once the gate passes, the Tax Rate Validation entry of the report
satisfies `TaxRateRuleSpec`: first-candidate-wins over `amount - tax` then
`amount`, non-positive candidates skipped, tolerance `|rate - 0.08| ≤ 0.05`,
automatic success on zero tax, error and failing report otherwise. -/
theorem tax_rate_rule_spec {E : Type} (receipt_exists : Value → Except E Bool)
    (data : ReceiptRecord) (skip_duplicate : Bool) (rep : ValidationReport)
    (hok : validate_receipt receipt_exists data skip_duplicate = Except.ok rep)
    (hgate : missingFields data = []) :
    TaxRateRuleSpec data rep := by
  have hshape : rep.results.get? 3 =
      some (taxRule (pyFloat data.amount) (pyFloat data.tax)) ∧
      (taxOk (pyFloat data.amount) (pyFloat data.tax) = false → rep.passed = false) := by
    rcases validate_receipt_ok_cases receipt_exists data skip_duplicate rep hok hgate with
      ⟨rfl, rfl⟩ | ⟨rfl, -, rfl⟩ | ⟨rfl, -, rfl⟩
    · exact ⟨rfl, fun hko => by show corePassed data = false; simp [corePassed, hko]⟩
    · exact ⟨rfl, fun _ => rfl⟩
    · exact ⟨rfl, fun hko => by show corePassed data = false; simp [corePassed, hko]⟩
  obtain ⟨h3, hp⟩ := hshape
  unfold TaxRateRuleSpec
  refine ⟨?_, ?_⟩
  · intro ht0
    rw [h3]
    simp [taxRule, ht0]
  · intro htne
    refine ⟨?_, ?_, ?_⟩
    · rintro ⟨hpos, hband⟩
      have hm := findTaxMatch_cons_of_hit (pyFloat data.tax) _ [pyFloat data.amount]
        hpos (by simpa [EXPECTED_TAX_RATE, TOLERANCE] using hband)
      rw [h3]
      simp [taxRule, htne, hm]
    · intro hnot hsecond
      obtain ⟨hpos2, hband2⟩ := hsecond
      have hm : findTaxMatch (pyFloat data.tax)
          [pyFloat data.amount - pyFloat data.tax, pyFloat data.amount] =
          some (pyFloat data.amount, pyFloat data.tax / pyFloat data.amount) := by
        by_cases hs : pyFloat data.amount - pyFloat data.tax ≤ 0
        · rw [findTaxMatch_cons_of_skip _ _ _ hs]
          exact findTaxMatch_cons_of_hit _ _ [] hpos2
            (by simpa [EXPECTED_TAX_RATE, TOLERANCE] using hband2)
        · have hpos1 : 0 < pyFloat data.amount - pyFloat data.tax := not_le.1 hs
          have hb1 : ¬ |pyFloat data.tax / (pyFloat data.amount - pyFloat data.tax) -
              EXPECTED_TAX_RATE| ≤ TOLERANCE := by
            intro hc
            exact hnot ⟨hpos1, by simpa [EXPECTED_TAX_RATE, TOLERANCE] using hc⟩
          rw [findTaxMatch_cons_of_miss _ _ _ hpos1 hb1]
          exact findTaxMatch_cons_of_hit _ _ [] hpos2
            (by simpa [EXPECTED_TAX_RATE, TOLERANCE] using hband2)
      rw [h3]
      simp [taxRule, htne, hm]
    · intro hnot1 hnot2
      have hm : findTaxMatch (pyFloat data.tax)
          [pyFloat data.amount - pyFloat data.tax, pyFloat data.amount] = none := by
        have hstep2 : findTaxMatch (pyFloat data.tax) [pyFloat data.amount] = none := by
          by_cases hs2 : pyFloat data.amount ≤ 0
          · rw [findTaxMatch_cons_of_skip _ _ _ hs2]
            rfl
          · have hpos2 : 0 < pyFloat data.amount := not_le.1 hs2
            have hb2 : ¬ |pyFloat data.tax / pyFloat data.amount -
                EXPECTED_TAX_RATE| ≤ TOLERANCE := by
              intro hc
              exact hnot2 ⟨hpos2, by simpa [EXPECTED_TAX_RATE, TOLERANCE] using hc⟩
            rw [findTaxMatch_cons_of_miss _ _ _ hpos2 hb2]
            rfl
        by_cases hs1 : pyFloat data.amount - pyFloat data.tax ≤ 0
        · rw [findTaxMatch_cons_of_skip _ _ _ hs1, hstep2]
        · have hpos1 : 0 < pyFloat data.amount - pyFloat data.tax := not_le.1 hs1
          have hb1 : ¬ |pyFloat data.tax / (pyFloat data.amount - pyFloat data.tax) -
              EXPECTED_TAX_RATE| ≤ TOLERANCE := by
            intro hc
            exact hnot1 ⟨hpos1, by simpa [EXPECTED_TAX_RATE, TOLERANCE] using hc⟩
          rw [findTaxMatch_cons_of_miss _ _ _ hpos1 hb1, hstep2]
      constructor
      · rw [h3]
        simp [taxRule, htne, hm]
      · apply hp
        simp [taxOk, htne, hm]

/-- Witness for C1 at the spec's worked example `amount = 108, tax = 8`. -/
theorem tax_rate_rule_spec_witness : TaxRateRuleSpec dataTax (repSkip dataTax) :=
  tax_rate_rule_spec exNoDup dataTax true (repSkip dataTax)
    (by simp [validate_receipt, repSkip, dataTax, missingFields,
      requiredList, ReceiptRecord.get])
    (by decide)

/-- C6 as stated is refuted: `dataOk` has all five fields, coerced tax
`0`, coerced amount `100 > 0` and a date that parses, yet with the default
skip flag (`false`) and a lookup reporting an existing duplicate, the
returned report has `passed = false`. -/
theorem tax_free_pass_counterexample :
    missingFields dataOk = [] ∧ pyFloat dataOk.tax = 0 ∧
    0 < pyFloat dataOk.amount ∧ validDate (pyStr dataOk.date) = true ∧
    (validate_receipt exDup dataOk false).map ValidationReport.passed =
      Except.ok false := by
  refine ⟨by decide, rfl, by decide, by decide, ?_⟩
  simp [validate_receipt, dataOk, exDup, missingFields, requiredList,
    ReceiptRecord.get, Except.map]

/-- C6 amended: a well-formed record with coerced `tax = 0`, coerced
`amount > 0` and a parsing date yields `passed = true` provided additionally
the duplicate rule does not fail, i.e. the skip flag is set or the existence
lookup answers `false`. -/
theorem tax_free_pass_amended {E : Type} (receipt_exists : Value → Except E Bool)
    (data : ReceiptRecord) (skip_duplicate : Bool) (rep : ValidationReport) (v : Value)
    (hok : validate_receipt receipt_exists data skip_duplicate = Except.ok rep)
    (hgate : missingFields data = []) (htax : pyFloat data.tax = 0)
    (hamt : 0 < pyFloat data.amount) (hdate : validDate (pyStr data.date) = true)
    (hb : data.bill_id = some v)
    (hdup : skip_duplicate = true ∨ receipt_exists v = Except.ok false) :
    rep.passed = true := by
  have hcore : corePassed data = true := by
    simp [corePassed, hdate, hamt, taxOk, htax]
  rcases validate_receipt_ok_cases receipt_exists data skip_duplicate rep hok hgate with
    ⟨-, rfl⟩ | ⟨hs, hex, rfl⟩ | ⟨-, -, rfl⟩
  · exact hcore
  · rcases hdup with h | h
    · rw [hs] at h
      simp at h
    · rw [hb, Option.getD_some, h] at hex
      simp at hex
  · exact hcore

/-- Witness for the amended C6 on a concrete run with a duplicate-free
lookup. -/
theorem tax_free_pass_amended_witness : (repNoDup dataOk).passed = true :=
  tax_free_pass_amended exNoDup dataOk false (repNoDup dataOk) (Value.vStr "B1")
    (by simp [validate_receipt, repNoDup, dataOk, exNoDup, missingFields,
      requiredList, ReceiptRecord.get])
    (by decide) rfl (by decide) (by decide) rfl (Or.inr rfl)

end ReceiptVault
